import Mathlib

/-!
Shallow embedding of the model-definition code of
`research-predict-disruption` (files `src/model.py` and
`src/models/model.py`) and proofs of shape / dataflow properties of the
architectures defined there.

Tensors are embedded at two levels:
* a shape level (`Shape5`, `Shape3`, ...) with the PyTorch output-size
  formulas for `Conv3d` / `MaxPool3d` / `AdaptiveAvgPool3d` / `view`;
* a value level (`Tensor5`, `Tensor2`, ...) where a tensor is its shape
  together with a total index function, used for the slicing and fusion
  dataflow of `SlowFastEncoder` and `SBERTDisruptionClassifier`.

Sub-modules whose defining file is not part of the excerpt
(`src/models/layer.py`, `src/models/slowfast.py`,
`src/models/transformer.py`) are modelled from the spec, as documented on
each such definition.
-/

set_option maxRecDepth 4000

namespace Disruption

/-- Shape of a 5-D tensor `(batch, channel, time, height, width)`. -/
structure Shape5 where
  n : Nat
  c : Nat
  t : Nat
  h : Nat
  w : Nat
deriving DecidableEq, Repr

/-- Shape of a 3-D tensor `(batch, seq, feature)`. -/
structure Shape3 where
  n : Nat
  t : Nat
  d : Nat
deriving DecidableEq, Repr

/-- Number of elements of a 5-D tensor. -/
def Shape5.numel (s : Shape5) : Nat := s.n * s.c * s.t * s.h * s.w

/-- Elements per batch item of a 5-D tensor. -/
def Shape5.itemNumel (s : Shape5) : Nat := s.c * s.t * s.h * s.w

/-- PyTorch output length of `Conv3d` along one axis:
`⌊(len + 2·padding − dilation·(kernel − 1) − 1) / stride⌋ + 1`. -/
def convOutLen (len kernel stride padding dilation : Nat) : Nat :=
  (len + 2 * padding - dilation * (kernel - 1) - 1) / stride + 1

/-- PyTorch output length of `MaxPool3d` along one axis with padding 0 and
dilation 1: `⌊(len − kernel) / stride⌋ + 1`. -/
def poolOutLen (len kernel stride : Nat) : Nat :=
  (len - kernel) / stride + 1

/-- Modelled from the spec: `Conv3dResBlock` is defined in
`src/models/layer.py`, which is absent from the excerpt; only its
constructor calls appear in `VideoSpatioEncoder.__init__`
(`src/models/model.py` lines 101-125).  Per those arguments it is a
residual 3-D convolution block whose output has `out_channels` channels
and whose spatio-temporal extent follows the `Conv3d` output-size formula
with the given cubic `kernel_size`, `stride`, `padding` and `dilation`
(the `downsample = True` projection matches that shape). -/
def Conv3dResBlock.outShape (out_channels kernel stride padding dilation : Nat)
    (s : Shape5) : Shape5 :=
  { n := s.n
    c := out_channels
    t := convOutLen s.t kernel stride padding dilation
    h := convOutLen s.h kernel stride padding dilation
    w := convOutLen s.w kernel stride padding dilation }

/-- Output shape of `nn.MaxPool3d` with kernel `(kt, kh, kw)`, stride
`(st, sh, sw)` and padding `(0,0,0)` (the only form used in
`VideoSpatioEncoder`). -/
def MaxPool3d.outShape (kt kh kw st sh sw : Nat) (s : Shape5) : Shape5 :=
  { s with
    t := poolOutLen s.t kt st
    h := poolOutLen s.h kh sh
    w := poolOutLen s.w kw sw }

/-- Result of `x.view(n0, d1, -1)` on a tensor of `numel` elements: the inferred last
dimension is `numel / (n0 * d1)`; the reshape errors out (PyTorch
`RuntimeError`) unless `n0 * d1` is nonzero and divides `numel`. -/
def view3Infer (n0 d1 numel : Nat) : Option Shape3 :=
  if n0 * d1 ≠ 0 ∧ numel % (n0 * d1) = 0 then
    some { n := n0, t := d1, d := numel / (n0 * d1) }
  else
    none

/-- Configuration of `VideoSpatioEncoder` (`src/models/model.py` lines
91-125): the per-item input shape `(C, T, H, W)`; `seq_len` is
`input_shape[1]`. -/
structure VideoSpatioEncoderCfg where
  in_c : Nat
  in_t : Nat
  in_h : Nat
  in_w : Nat

def VideoSpatioEncoderCfg.seq_len (cfg : VideoSpatioEncoderCfg) : Nat := cfg.in_t

/-- The default `input_shape = (3, 8, 112, 112)`. -/
def VideoSpatioEncoderCfg.default : VideoSpatioEncoderCfg :=
  { in_c := 3, in_t := 8, in_h := 112, in_w := 112 }

/-- Shape pipeline of the convolutional body of
`VideoSpatioEncoder.forward` (`src/models/model.py` lines 134-141):
`conv_block1 → pooling_block1 → conv_block2 → pooling_block2 →
conv_block3 → pooling_block3 → conv_block4`, with the constructor
arguments of lines 101-125 (channels 64/128/256/512, kernel 3, stride 2,
padding 1, dilation 1; pools of kernel `(1,3,3)`, stride `(1,1,1)`). -/
def VideoSpatioEncoder.bodyShape (s : Shape5) : Shape5 :=
  let s1 := Conv3dResBlock.outShape 64 3 2 1 1 s
  let s1p := MaxPool3d.outShape 1 3 3 1 1 1 s1
  let s2 := Conv3dResBlock.outShape 128 3 2 1 1 s1p
  let s2p := MaxPool3d.outShape 1 3 3 1 1 1 s2
  let s3 := Conv3dResBlock.outShape 256 3 2 1 1 s2p
  let s3p := MaxPool3d.outShape 1 3 3 1 1 1 s3
  Conv3dResBlock.outShape 512 3 2 1 1 s3p

/-- Output shape of `VideoSpatioEncoder.forward`: the convolutional body
followed by `x.view(x.size(0), self.seq_len, -1)`
(`src/models/model.py` line 142). -/
def VideoSpatioEncoder.forwardShape (cfg : VideoSpatioEncoderCfg)
    (s : Shape5) : Option Shape3 :=
  view3Infer (VideoSpatioEncoder.bodyShape s).n cfg.seq_len
    (VideoSpatioEncoder.bodyShape s).numel

/-- A 5-D tensor at value level: its shape together with a total index
function (the framework only ever reads indices inside the shape). -/
structure Tensor5 where
  n : Nat
  c : Nat
  t : Nat
  h : Nat
  w : Nat
  data : Nat → Nat → Nat → Nat → Nat → Int

/-- A 2-D feature tensor `(batch, feature)` at value level. -/
structure Tensor2 where
  n : Nat
  d : Nat
  data : Nat → Nat → Int

/-- A 3-D sequence tensor `(batch, seq, feature)` at value level. -/
structure Tensor3 where
  n : Nat
  t : Nat
  d : Nat
  data : Nat → Nat → Nat → Int

/-- Python slicing `x[:, :, ::k, :, :]` with step `k ≥ 1`: keeps the frames
at time indices `0, k, 2k, …`, so the time extent becomes `⌈T / k⌉` and
frame `i` of the result is frame `k·i` of the input. -/
def timeSlice (x : Tensor5) (k : Nat) : Tensor5 :=
  { x with
    t := (x.t + k - 1) / k
    data := fun n c t h w => x.data n c (k * t) h w }

/-- Embedding of `torch.cat([a, b], dim = 1)` on 2-D feature tensors. -/
def catDim1 (a b : Tensor2) : Tensor2 :=
  { n := a.n
    d := a.d + b.d
    data := fun i j => if j < a.d then a.data i j else b.data i (j - a.d) }

/-- Configuration of `SlowFastEncoder` (`src/models/model.py` lines
183-203): the sampling period `tau_fast` of the fast pathway and the
speed ratio `alpha`; the defaults are `tau_fast = 1`, `alpha = 4`. -/
structure SlowFastEncoderCfg where
  tau_fast : Nat
  alpha : Nat

def SlowFastEncoderCfg.default : SlowFastEncoderCfg :=
  { tau_fast := 1, alpha := 4 }

/-- Embedding of `SlowFastEncoder.split_slow_fast` (`src/models/model.py` lines
212-230): `tau_slow = tau_fast * alpha`, `x_slow = x[:,:,::tau_slow,:,:]`,
`x_fast = x[:,:,::tau_fast,:,:]`, returned in the order
`(x_slow, x_fast)`. -/
def SlowFastEncoder.split_slow_fast (cfg : SlowFastEncoderCfg)
    (x : Tensor5) : Tensor5 × Tensor5 :=
  let tau_slow := cfg.tau_fast * cfg.alpha
  (timeSlice x tau_slow, timeSlice x cfg.tau_fast)

/-- Modelled from the spec: the slow and fast pathway networks
`resnet50_s` / `resnet50_f` and the dropout layer come from
`src/models/slowfast.py` and the framework, both absent from the excerpt;
per the spec they are a dual-pathway ResNet in which the fast network
returns its features together with lateral-connection tensors and the
slow network consumes its stream together with those laterals.  They are
kept abstract here: any functions of these types. -/
structure SlowFastNets where
  fastnet : Tensor5 → Tensor2 × List Tensor5
  slownet : Tensor5 × List Tensor5 → Tensor2
  dropout : Tensor2 → Tensor2

/-- Embedding of `SlowFastEncoder.forward` (`src/models/model.py` lines 232-242):
split into slow/fast streams, run the fast network (features and
laterals), run the slow network on the slow stream plus the laterals,
concatenate along dim 1 (slow first), apply dropout. -/
def SlowFastEncoder.forward (cfg : SlowFastEncoderCfg) (nets : SlowFastNets)
    (x : Tensor5) : Tensor2 :=
  let p := SlowFastEncoder.split_slow_fast cfg x
  let x_slow := p.1
  let x_fast := p.2
  let fastOut := nets.fastnet x_fast
  let x_fast2 := fastOut.1
  let laterals := fastOut.2
  let x_slow2 := nets.slownet (x_slow, laterals)
  nets.dropout (catDim1 x_slow2 x_fast2)

/-- Per-batch-item shape `(C, T, H, W)`. -/
structure Item4 where
  c : Nat
  t : Nat
  h : Nat
  w : Nat
deriving DecidableEq, Repr

def Item4.numel (it : Item4) : Nat := it.c * it.t * it.h * it.w

def Shape5.item (s : Shape5) : Item4 := ⟨s.c, s.t, s.h, s.w⟩

def Shape5.ofItem (n : Nat) (it : Item4) : Shape5 := ⟨n, it.c, it.t, it.h, it.w⟩

/-- Result of `x.view(n0, -1)`: infers the last dimension as `numel / n0`; errors
unless `n0` is nonzero and divides `numel`. -/
def view2Infer (n0 numel : Nat) : Option (Nat × Nat) :=
  if n0 ≠ 0 ∧ numel % n0 = 0 then some (n0, numel / n0) else none

/-- Output shape of `nn.AdaptiveAvgPool3d(1)`: every spatio-temporal
extent collapses to 1. -/
def AdaptiveAvgPool3d1.outShape (s : Shape5) : Shape5 :=
  { s with t := 1, h := 1, w := 1 }

/-- Shape action of `nn.Linear(in_features, out_features)` on a 2-D input:
the feature dimension must equal `in_features`, otherwise the framework
raises a shape-mismatch error. -/
def Linear.outShape (in_features out_features : Nat) (s : Nat × Nat) :
    Option (Nat × Nat) :=
  if s.2 = in_features then some (s.1, out_features) else none

/-- Modelled from the spec: `SpatioTemporalConv` and
`SpatioTemporalResLayer` are defined in `src/models/layer.py`, absent from
the excerpt; only their constructor calls appear in `R2Plus1DNet.__init__`
(`src/models/model.py` lines 11-20).  Their spatio-temporal output extents
are kept fully abstract (one transfer function per layer, applied
batchwise as every framework convolution is); their output channel counts
are the constructor arguments 64, 64, 128, 256, 512. -/
structure R2Plus1DSpatial where
  f1 : Nat × Nat × Nat → Nat × Nat × Nat
  f2 : Nat × Nat × Nat → Nat × Nat × Nat
  f3 : Nat × Nat × Nat → Nat × Nat × Nat
  f4 : Nat × Nat × Nat → Nat × Nat × Nat
  f5 : Nat × Nat × Nat → Nat × Nat × Nat

/-- Shape action of one convolutional layer of `R2Plus1DNet`: fixed
output channels, abstract spatio-temporal transfer, batch preserved. -/
def convLayerShape (out_channels : Nat)
    (f : Nat × Nat × Nat → Nat × Nat × Nat) (s : Shape5) : Shape5 :=
  let e := f (s.t, s.h, s.w)
  { n := s.n, c := out_channels, t := e.1, h := e.2.1, w := e.2.2 }

/-- Shape of `R2Plus1DNet.forward` (`src/models/model.py` lines 22-32):
`conv1 … conv5`, `AdaptiveAvgPool3d(1)`, then
`x.view(batch_size, -1)`. -/
def R2Plus1DNet.forwardShape (sp : R2Plus1DSpatial) (s : Shape5) :
    Option (Nat × Nat) :=
  let s1 := convLayerShape 64 sp.f1 s
  let s2 := convLayerShape 64 sp.f2 s1
  let s3 := convLayerShape 128 sp.f3 s2
  let s4 := convLayerShape 256 sp.f4 s3
  let s5 := convLayerShape 512 sp.f5 s4
  let p := AdaptiveAvgPool3d1.outShape s5
  view2Infer p.n p.numel

/-- Embedding of `R2Plus1DClassifier.get_res2plus1d_output_size`
(`src/models/model.py` lines 61-65): runs the encoder on a zero probe of
shape `(1, *input_size)`; the classifier reads index `[1]` of the result
(the feature dimension). -/
def R2Plus1DClassifier.probeDims (sp : R2Plus1DSpatial) (input_size : Item4) :
    Nat :=
  match R2Plus1DNet.forwardShape sp (Shape5.ofItem 1 input_size) with
  | some p => p.2
  | none => 0

/-- Shape of the classifier head of `R2Plus1DClassifier`
(`src/models/model.py` lines 49-54): `Linear(linear_dims, 128)`,
`BatchNorm1d(128)` and `LeakyReLU` (shape-preserving), then
`Linear(128, num_classes)`. -/
def R2Plus1DClassifier.headShape (linear_dims num_classes : Nat)
    (s : Nat × Nat) : Option (Nat × Nat) :=
  (Linear.outShape linear_dims 128 s).bind (Linear.outShape 128 num_classes)

/-- Shape of `R2Plus1DClassifier.forward` (`src/models/model.py` lines
81-84): the encoder, then the head whose first `Linear` input dimension
was set from the zero-probe output. -/
def R2Plus1DClassifier.forwardShape (sp : R2Plus1DSpatial)
    (input_size : Item4) (num_classes : Nat) (s : Shape5) :
    Option (Nat × Nat) :=
  (R2Plus1DNet.forwardShape sp s).bind
    (R2Plus1DClassifier.headShape
      (R2Plus1DClassifier.probeDims sp input_size) num_classes)

/-- Slicing `x[:, :, ::k, :, :]` at shape level on a per-item shape. -/
def Item4.timeSlice (it : Item4) (k : Nat) : Item4 :=
  { it with t := (it.t + k - 1) / k }

/-- Modelled from the spec: the feature dimensions of the dual pathways of
`SlowFastEncoder` are produced by `resnet50_s` / `resnet50_f` from
`src/models/slowfast.py`, absent from the excerpt.  As for every
convolutional network, each pathway's output is `(batch, features)` with
the feature count a function of the per-item input shape only (batch is
preserved); the slow feature count may also depend on the fast stream's
shape through the lateral connections. -/
structure SlowFastShapeSem where
  fastDim : Item4 → Nat
  slowDim : Item4 → Item4 → Nat

/-- Shape of `SlowFastEncoder.forward` (`src/models/model.py` lines
232-242): slow/fast features concatenated along dim 1 (slow first);
`nn.Dropout` preserves the shape. -/
def SlowFastEncoder.outShape (cfg : SlowFastEncoderCfg)
    (sem : SlowFastShapeSem) (s : Shape5) : Nat × Nat :=
  let itSlow := s.item.timeSlice (cfg.tau_fast * cfg.alpha)
  let itFast := s.item.timeSlice cfg.tau_fast
  (s.n, sem.slowDim itSlow itFast + sem.fastDim itFast)

/-- Embedding of `SlowFastEncoder.get_output_size` (`src/models/model.py` lines
205-210): runs the encoder on a zero probe of shape `(8, *input_shape)`;
`SlowFastDisruptionClassifier.__init__` reads index `[-1]` of the result
(the feature dimension). -/
def SlowFastEncoder.probeDims (cfg : SlowFastEncoderCfg)
    (sem : SlowFastShapeSem) (input_shape : Item4) : Nat :=
  (SlowFastEncoder.outShape cfg sem (Shape5.ofItem 8 input_shape)).2

/-- Shape of the classifier head of `SlowFastDisruptionClassifier`
(`src/models/model.py` lines 270-278): `Linear(slowfast_output_dim,
mlp_hidden)`, `BatchNorm1d` / `ReLU` (shape-preserving),
`Linear(mlp_hidden, mlp_hidden)`, `BatchNorm1d` / `ReLU`,
`Linear(mlp_hidden, num_classes)`. -/
def SlowFastDisruptionClassifier.headShape
    (slowfast_output_dim mlp_hidden num_classes : Nat) (s : Nat × Nat) :
    Option (Nat × Nat) :=
  ((Linear.outShape slowfast_output_dim mlp_hidden s).bind
    (Linear.outShape mlp_hidden mlp_hidden)).bind
    (Linear.outShape mlp_hidden num_classes)

/-- Shape of `SlowFastDisruptionClassifier.forward`
(`src/models/model.py` lines 280-284): the SlowFast encoder, then the
head whose first `Linear` input dimension was set from the zero-probe
output. -/
def SlowFastDisruptionClassifier.forwardShape (cfg : SlowFastEncoderCfg)
    (sem : SlowFastShapeSem) (input_shape : Item4)
    (mlp_hidden num_classes : Nat) (s : Shape5) : Option (Nat × Nat) :=
  SlowFastDisruptionClassifier.headShape
    (SlowFastEncoder.probeDims cfg sem input_shape) mlp_hidden num_classes
    (SlowFastEncoder.outShape cfg sem s)

/-- Modelled from the spec: `UNet3D` (`src/models/unet3d.py`) and
`ResNet50` over `Bottleneck2DPlus1D` (`src/models/resnet.py`) are absent
from the excerpt; both are convolutional networks mapping a 5-D input to a
5-D output batchwise, so their shape actions are abstract per-item
transfer functions. -/
structure Unet3DShapeSem where
  unet : Item4 → Item4
  resnet : Item4 → Item4

/-- Shape of `Unet3DClassifier.forward` (`src/models/model.py` lines
381-387): `spatio_encoder`, `resnet`, `torch.flatten(x, start_dim = 1)`
(total, shape `(N, itemNumel)`), then the head `Linear(classifier_dims,
mlp_hidden)`, `BatchNorm1d` / `ReLU`, `Linear(mlp_hidden,
num_classes)` with `classifier_dims` probed at batch 4
(`get_resnet_output`, lines 374-379). -/
def Unet3DClassifier.forwardShape (sem : Unet3DShapeSem)
    (input_shape : Item4) (mlp_hidden num_classes : Nat) (s : Shape5) :
    Option (Nat × Nat) :=
  let classifier_dims := (sem.resnet (sem.unet input_shape)).numel
  let flat := (s.n, (sem.resnet (sem.unet s.item)).numel)
  (Linear.outShape classifier_dims mlp_hidden flat).bind
    (Linear.outShape mlp_hidden num_classes)

/-- Modelled from the spec: `SBERT` (`src/models/transformer.py`) is a
BERT-style sequence encoder, absent from the excerpt.  It maps a
`(batch, seq, feature)` tensor plus an integer day-of-year tensor and an
optional mask to a `(batch, seq, hidden)` tensor, batchwise, with the
hidden size a function of the per-item sequence shape;
`MulticlassClassifier` (`src/models/layer.py`) maps the encoded sequence
to `(batch, num_classes)`. -/
structure SBERTShapeSem where
  hidden : Nat × Nat → Nat
  num_classes : Nat

/-- Shape of `SBERTDisruptionClassifier.forward` (`src/models/model.py`
lines 327-335): `VideoSpatioEncoder`, then `SBERT`, then
`MulticlassClassifier`. -/
def SBERTDisruptionClassifier.forwardShape (cfg : VideoSpatioEncoderCfg)
    (sem : SBERTShapeSem) (s : Shape5) : Option (Nat × Nat) :=
  (VideoSpatioEncoder.forwardShape cfg s).map
    (fun e => (e.n, sem.num_classes))

/-- An integer 2-D tensor `(batch, len)` at value level, as produced by
`torch.IntTensor(...).repeat(batch, 1)`. -/
structure IntTensor2 where
  n : Nat
  d : Nat
  data : Nat → Nat → Int

/-- Embedding of `torch.IntTensor(list(map(int, range(1, max_len + 1)))).repeat(batch, 1)`
(`src/models/model.py` line 331): shape `(batch, max_len)`, every row the
ramp `1, 2, …, max_len`. -/
def rampDoy (batch max_len : Nat) : IntTensor2 :=
  { n := batch, d := max_len, data := fun _ i => (i : Int) + 1 }

/-- Modelled from the spec: the components of `SBERTDisruptionClassifier`
— the `SBERT` sequence encoder of `src/models/transformer.py` (taking the
encoded video sequence, a day-of-year tensor, and an optional mask) and
the `MulticlassClassifier` head of `src/models/layer.py` — are absent
from the excerpt and kept abstract, together with the
`VideoSpatioEncoder` instance the classifier wraps. -/
structure SBERTClassifierModel where
  max_len : Nat
  spatio_encoder : Tensor5 → Tensor3
  encode : Tensor3 → IntTensor2 → Option IntTensor2 → Tensor3
  classifier : Tensor3 → Tensor2

/-- Embedding of `SBERTDisruptionClassifier.forward` (`src/models/model.py` lines
327-335): encode the video, build `doy` as the fixed integer ramp repeated
once per batch element, set `mask = None`, run SBERT, classify. -/
def SBERTDisruptionClassifier.forward (m : SBERTClassifierModel)
    (x : Tensor5) : Tensor2 :=
  let x1 := m.spatio_encoder x
  let doy := rampDoy x1.n m.max_len
  let mask : Option IntTensor2 := none
  m.classifier (m.encode x1 doy mask)

/-- A model together with its printed-output log; `print` appends a line.
The parameter store is an abstract type `P`, read but never written by the
`summary` methods. -/
structure SummaryState (M : Type) where
  model : M
  log : List String

/-- Abstract rendering function of the external
`pytorch_model_summary.summary(model, sample, …)` call: reads the model
and the probe tensor and returns the text to print. -/
structure SummaryRenderer (M : Type) where
  render : M → Tensor5 → String

/-- Embedding of `torch.zeros(shape)` for a 5-D shape. -/
def zeros5 (s : Shape5) : Tensor5 :=
  { n := s.n, c := s.c, t := s.t, h := s.h, w := s.w
    data := fun _ _ _ _ _ => 0 }

/-- Embedding of `R2Plus1DClassifier.summary` (`src/models/model.py` lines 86-89):
`sample = torch.zeros((1, *input_size))`, then
`print(summary(self, sample, …))`; returns `None`. -/
def R2Plus1DClassifier.summaryRun {M : Type} (r : SummaryRenderer M)
    (input_size : Item4) (st : SummaryState M) : SummaryState M × Unit :=
  let sample := zeros5 (Shape5.ofItem 1 input_size)
  ({ st with log := st.log ++ [r.render st.model sample] }, ())

/-- Embedding of `SlowFastEncoder.summary` (`src/models/model.py` lines 244-248):
`sample = torch.zeros((8, *input_shape))` moved to the model's device,
then `print(summary(self, sample, …))`; returns `None`. -/
def SlowFastEncoder.summaryRun {M : Type} (r : SummaryRenderer M)
    (input_shape : Item4) (st : SummaryState M) : SummaryState M × Unit :=
  let sample := zeros5 (Shape5.ofItem 8 input_shape)
  ({ st with log := st.log ++ [r.render st.model sample] }, ())

/-- Embedding of `SlowFastDisruptionClassifier.summary` (`src/models/model.py` lines
294-297): `sample = torch.zeros((8, *input_shape))`, then
`print(summary(self, sample, …))`; returns `None`. -/
def SlowFastDisruptionClassifier.summaryRun {M : Type}
    (r : SummaryRenderer M) (input_shape : Item4) (st : SummaryState M) :
    SummaryState M × Unit :=
  let sample := zeros5 (Shape5.ofItem 8 input_shape)
  ({ st with log := st.log ++ [r.render st.model sample] }, ())

/-- Embedding of `SBERTDisruptionClassifier.summary` (`src/models/model.py` lines
337-341): `sample = torch.zeros((8, *spatio_encoder.input_shape))` on the
model's device, then `print(summary(self, sample, …))`; returns `None`. -/
def SBERTDisruptionClassifier.summaryRun {M : Type} (r : SummaryRenderer M)
    (input_shape : Item4) (st : SummaryState M) : SummaryState M × Unit :=
  let sample := zeros5 (Shape5.ofItem 8 input_shape)
  ({ st with log := st.log ++ [r.render st.model sample] }, ())

/-- Embedding of `Unet3DClassifier.summary` (`src/models/model.py` lines 389-392):
`sample_input = torch.zeros((4, *input_shape))` on the model's device,
then `print(summary(self, sample_input, …))`; returns `None`. -/
def Unet3DClassifier.summaryRun {M : Type} (r : SummaryRenderer M)
    (input_shape : Item4) (st : SummaryState M) : SummaryState M × Unit :=
  let sample := zeros5 (Shape5.ofItem 4 input_shape)
  ({ st with log := st.log ++ [r.render st.model sample] }, ())

/-- An error of the underlying tensor framework, tagged with the
framework operation that raised it.  The repository defines no error type
of its own, so this is the only error type of the embedding. -/
structure FwError where
  op : String
deriving DecidableEq, Repr

/-- Fallible framework modules of `SlowFastDisruptionClassifier.forward`
(`src/models/model.py` lines 280-284): the wrapped SlowFast encoder and
the `nn.Sequential` head; each either returns a tensor or raises a
framework error. -/
structure SlowFastFallible where
  slowfast : Tensor5 → Except FwError Tensor2
  classifier : Tensor2 → Except FwError Tensor2

/-- Embedding of `SlowFastDisruptionClassifier.forward` with framework errors
propagated: the repository code is a plain composition with no `try`,
`raise` or error branch of its own. -/
def SlowFastDisruptionClassifier.forwardE (m : SlowFastFallible)
    (x : Tensor5) : Except FwError Tensor2 :=
  match m.slowfast x with
  | Except.error e => Except.error e
  | Except.ok y => m.classifier y

/-- Fallible framework modules of `Unet3DClassifier.forward`
(`src/models/model.py` lines 381-387): the UNet3D encoder, the ResNet,
and the linear head; `torch.flatten` is total. -/
structure Unet3DFallible where
  spatio_encoder : Tensor5 → Except FwError Tensor5
  resnet : Tensor5 → Except FwError Tensor5
  flatten : Tensor5 → Tensor2
  classifier : Tensor2 → Except FwError Tensor2

/-- Embedding of `Unet3DClassifier.forward` with framework errors propagated: again a
plain composition, with no error branch introduced by repository code. -/
def Unet3DClassifier.forwardE (m : Unet3DFallible) (x : Tensor5) :
    Except FwError Tensor2 :=
  match m.spatio_encoder x with
  | Except.error e => Except.error e
  | Except.ok y =>
    match m.resnet y with
    | Except.error e => Except.error e
    | Except.ok z => m.classifier (m.flatten z)

/-- A learnable parameter tensor: its shape and its values. -/
structure ParamTensor where
  shape : List Nat
  val : List Nat → Rat

/-- In-place `tensor.data.fill_(v)`: values become the constant `v`, the
shape is unchanged. -/
def ParamTensor.fill (p : ParamTensor) (v : Rat) : ParamTensor :=
  { p with val := fun _ => v }

/-- The module kinds distinguished by `R2Plus1DClassifier.__init_weight`
(`src/models/model.py` lines 73-79): `nn.Conv3d`, `nn.BatchNorm3d`, and
everything else. -/
inductive ModuleKind
  | conv3d
  | batchNorm3d
  | other
deriving DecidableEq, Repr

/-- A submodule as seen by `self.modules()`: its kind and its `weight` and
`bias` parameter tensors. -/
structure PModule where
  kind : ModuleKind
  weight : ParamTensor
  bias : ParamTensor

/-- Embedding of `R2Plus1DClassifier.__init_weight` (`src/models/model.py`
lines 73-79): for every submodule, `nn.Conv3d` gets
`nn.init.kaiming_normal_(m.weight)` (the random draw is abstracted by
`kaiming`, a function of the weight's shape with the generator state
folded in), `nn.BatchNorm3d` gets `m.weight.data.fill_(1)` and
`m.bias.data.zero_()`, and every other module is untouched. -/
def initWeight (kaiming : List Nat → List Nat → Rat) (ms : List PModule) :
    List PModule :=
  ms.map fun m =>
    match m.kind with
    | .conv3d =>
        { m with weight := { shape := m.weight.shape
                             val := kaiming m.weight.shape } }
    | .batchNorm3d =>
        { m with weight := m.weight.fill 1, bias := m.bias.fill 0 }
    | .other => m

/-- Embedding of `R2Plus1DClassifier.__load_pretrained_weights`
(`src/models/model.py` lines 67-71): iterates over the state dict and
prints each parameter name and size; it modifies no parameter. -/
def loadPretrainedWeights (ms : List PModule) (log : List String) :
    List PModule × List String :=
  (ms, log ++ ms.map (fun m => toString m.weight.shape))

/-- Weight handling of `R2Plus1DClassifier.__init__`
(`src/models/model.py` lines 43-59): after the submodules are built,
`self.__init_weight()` is called unconditionally, and
`self.__load_pretrained_weights()` (print-only) runs iff `pretrained`. -/
def R2Plus1DClassifier.constructModules (kaiming : List Nat → List Nat → Rat)
    (base : List PModule) (pretrained : Bool) : List PModule × List String :=
  let ms := initWeight kaiming base
  if pretrained then loadPretrainedWeights ms [] else (ms, [])

/-! ## Helper lemmas -/

/-- The convolutional body of `VideoSpatioEncoder` maps any batch of the
default per-item shape `(3, 8, 112, 112)` to `(N, 512, 1, 6, 6)`. -/
theorem videoSpatio_bodyShape_default (N : Nat) :
    VideoSpatioEncoder.bodyShape ⟨N, 3, 8, 112, 112⟩ = ⟨N, 512, 1, 6, 6⟩ := by
  simp [VideoSpatioEncoder.bodyShape, Conv3dResBlock.outShape,
    MaxPool3d.outShape, convOutLen, poolOutLen]

/-- For a positive batch, `VideoSpatioEncoder.forward` on the default
input shape reshapes successfully to `(N, 8, 2304)`. -/
theorem videoSpatio_forwardShape_default (N : Nat) (h : 0 < N) :
    VideoSpatioEncoder.forwardShape VideoSpatioEncoderCfg.default
      ⟨N, 3, 8, 112, 112⟩ = some ⟨N, 8, 2304⟩ := by
  have h8 : 0 < N * 8 := by omega
  unfold VideoSpatioEncoder.forwardShape
  rw [videoSpatio_bodyShape_default N]
  have hnum : Shape5.numel ⟨N, 512, 1, 6, 6⟩ = N * 8 * 2304 := by
    simp [Shape5.numel]
    ring
  have hseq : VideoSpatioEncoderCfg.default.seq_len = 8 := rfl
  rw [hnum, hseq]
  show view3Infer N 8 (N * 8 * 2304) = some ⟨N, 8, 2304⟩
  unfold view3Infer
  rw [if_pos ⟨by omega, Nat.mul_mod_right (N * 8) 2304⟩]
  rw [Nat.mul_div_cancel_left 2304 h8]

/-- Unfolding of `R2Plus1DNet.forwardShape`: the conv stack ends with 512
channels, the adaptive pool collapses the extents to 1, and the view
flattens to `512` features. -/
theorem r2plus1dNet_forwardShape_eq (sp : R2Plus1DSpatial) (s : Shape5) :
    R2Plus1DNet.forwardShape sp s = view2Infer s.n (s.n * 512) := by
  simp [R2Plus1DNet.forwardShape, convLayerShape, AdaptiveAvgPool3d1.outShape,
    Shape5.numel]

/-- `R2Plus1DNet.forward` flattens the adaptively pooled 512 channels: for
a positive batch the output shape is `(N, 512)`. -/
theorem r2plus1dNet_forwardShape_out (sp : R2Plus1DSpatial) (s : Shape5)
    (h : 0 < s.n) : R2Plus1DNet.forwardShape sp s = some (s.n, 512) := by
  rw [r2plus1dNet_forwardShape_eq]
  unfold view2Infer
  rw [if_pos ⟨by omega, Nat.mul_mod_right s.n 512⟩]
  rw [Nat.mul_div_cancel_left 512 h]

/-- A successful `view(n0, d1, -1)` keeps the requested leading
dimensions. -/
theorem view3Infer_some_n {n0 d1 numel : Nat} {sh : Shape3}
    (h : view3Infer n0 d1 numel = some sh) : sh.n = n0 ∧ sh.t = d1 := by
  unfold view3Infer at h
  split at h
  · injection h with h2
    subst h2
    exact ⟨rfl, rfl⟩
  · simp at h

/-- A successful `view(n0, -1)` keeps the requested batch dimension. -/
theorem view2Infer_some {n0 numel : Nat} {p : Nat × Nat}
    (h : view2Infer n0 numel = some p) : p.1 = n0 := by
  unfold view2Infer at h
  split at h
  · injection h with h2
    subst h2
    rfl
  · simp at h

/-- `nn.Linear` preserves the batch dimension when it succeeds. -/
theorem linear_outShape_some {i o : Nat} {s p : Nat × Nat}
    (h : Linear.outShape i o s = some p) : p.1 = s.1 := by
  unfold Linear.outShape at h
  split at h
  · injection h with h2
    subst h2
    rfl
  · simp at h

/-! ## Claim theorems -/

/-- **C1, counterexample.**  The claim states that `VideoSpatioEncoder`
with the default `input_shape (3, 8, 112, 112)` maps `(N, 3, 8, 112, 112)`
to `(N, seq_len, 512)`.  At `N = 1` the code produces `(1, 8, 2304)`
— after the four stride-2 blocks and three pools the per-item tensor is
`(512, 1, 6, 6)`, flattened over `seq_len = 8` steps — so the claimed
shape `(1, 8, 512)` is wrong. -/
theorem C1_counterexample_output_dim_not_512 :
    VideoSpatioEncoder.forwardShape VideoSpatioEncoderCfg.default
        ⟨1, 3, 8, 112, 112⟩ = some ⟨1, 8, 2304⟩ ∧
    VideoSpatioEncoder.forwardShape VideoSpatioEncoderCfg.default
        ⟨1, 3, 8, 112, 112⟩ ≠ some ⟨1, 8, 512⟩ := by
  constructor
  · decide
  · decide

/-- **C1 (amended).**  For every batch size `N ≥ 1`, `VideoSpatioEncoder`
constructed with the default `input_shape (3, 8, 112, 112)` maps an input
of shape `(N, 3, 8, 112, 112)` to an output of shape
`(N, seq_len, 2304)`, where `seq_len = input_shape[1] = 8`. -/
theorem C1_video_spatio_output_shape (N : Nat) (h : 0 < N) :
    VideoSpatioEncoder.forwardShape VideoSpatioEncoderCfg.default
        ⟨N, 3, 8, 112, 112⟩ =
      some ⟨N, VideoSpatioEncoderCfg.default.seq_len, 2304⟩ ∧
    VideoSpatioEncoderCfg.default.seq_len = 8 :=
  ⟨videoSpatio_forwardShape_default N h, rfl⟩

/-- Witness for C1's theorem at `N = 2`. -/
theorem C1_video_spatio_output_shape_witness :
    0 < 2 ∧
    (VideoSpatioEncoder.forwardShape VideoSpatioEncoderCfg.default
          ⟨2, 3, 8, 112, 112⟩ =
        some ⟨2, VideoSpatioEncoderCfg.default.seq_len, 2304⟩ ∧
      VideoSpatioEncoderCfg.default.seq_len = 8) :=
  ⟨by decide, C1_video_spatio_output_shape 2 (by decide)⟩

/-- **C5.**  Under the default `input_shape (3, 8, 112, 112)`, the body of
`VideoSpatioEncoder.forward` produces a per-item tensor `(512, 1, 6, 6)`
of `512 · 1 · 6 · 6 = 18432` elements, `18432` is divisible by
`seq_len = 8`, so the final `x.view(x.size(0), seq_len, -1)` cannot hit
its error branch and yields the per-step feature dimension `2304`. -/
theorem C5_view_reshape_well_defined (N : Nat) (h : 0 < N) :
    VideoSpatioEncoder.bodyShape ⟨N, 3, 8, 112, 112⟩ = ⟨N, 512, 1, 6, 6⟩ ∧
    Shape5.itemNumel ⟨N, 512, 1, 6, 6⟩ = 18432 ∧
    18432 % VideoSpatioEncoderCfg.default.seq_len = 0 ∧
    VideoSpatioEncoder.forwardShape VideoSpatioEncoderCfg.default
        ⟨N, 3, 8, 112, 112⟩ = some ⟨N, 8, 2304⟩ ∧
    (VideoSpatioEncoder.forwardShape VideoSpatioEncoderCfg.default
        ⟨N, 3, 8, 112, 112⟩).isSome = true := by
  refine ⟨videoSpatio_bodyShape_default N, by simp [Shape5.itemNumel],
    by decide, videoSpatio_forwardShape_default N h, ?_⟩
  rw [videoSpatio_forwardShape_default N h]
  rfl

/-- Witness for C5's theorem at `N = 1`. -/
theorem C5_view_reshape_well_defined_witness :
    0 < 1 ∧
    (VideoSpatioEncoder.bodyShape ⟨1, 3, 8, 112, 112⟩ = ⟨1, 512, 1, 6, 6⟩ ∧
      Shape5.itemNumel ⟨1, 512, 1, 6, 6⟩ = 18432 ∧
      18432 % VideoSpatioEncoderCfg.default.seq_len = 0 ∧
      VideoSpatioEncoder.forwardShape VideoSpatioEncoderCfg.default
          ⟨1, 3, 8, 112, 112⟩ = some ⟨1, 8, 2304⟩ ∧
      (VideoSpatioEncoder.forwardShape VideoSpatioEncoderCfg.default
          ⟨1, 3, 8, 112, 112⟩).isSome = true) :=
  ⟨by decide, C5_view_reshape_well_defined 1 (by decide)⟩

/-- **C2.**  `SlowFastEncoder.split_slow_fast` returns
`(x_slow, x_fast)` with `x_fast` the time-subsampling of `x` at stride
`tau_fast` and `x_slow` the time-subsampling at stride
`tau_fast * alpha`; frame `i` of the slow stream is frame `alpha·i` of
the fast stream (the slow frame rate is lower by exactly the factor
`alpha`); and with the defaults `tau_fast = 1`, `alpha = 4` the fast
stream keeps all `T` frames while the slow stream keeps every 4th
frame. -/
theorem C2_split_slow_fast_strides (cfg : SlowFastEncoderCfg) (x : Tensor5) :
    SlowFastEncoder.split_slow_fast cfg x =
      (timeSlice x (cfg.tau_fast * cfg.alpha), timeSlice x cfg.tau_fast) ∧
    (∀ n c t h w,
      (SlowFastEncoder.split_slow_fast cfg x).1.data n c t h w =
        (SlowFastEncoder.split_slow_fast cfg x).2.data n c (cfg.alpha * t) h w) ∧
    (SlowFastEncoder.split_slow_fast SlowFastEncoderCfg.default x).2 = x ∧
    (∀ n c t h w,
      (SlowFastEncoder.split_slow_fast SlowFastEncoderCfg.default x).1.data
          n c t h w = x.data n c (4 * t) h w) ∧
    (SlowFastEncoder.split_slow_fast SlowFastEncoderCfg.default x).1.t =
      (x.t + 3) / 4 := by
  refine ⟨rfl, ?_, ?_, ?_, ?_⟩
  · intro n c t h w
    show x.data n c (cfg.tau_fast * cfg.alpha * t) h w =
      x.data n c (cfg.tau_fast * (cfg.alpha * t)) h w
    rw [Nat.mul_assoc]
  · show timeSlice x 1 = x
    cases x with
    | mk n c t h w data => simp [timeSlice]
  · intro n c t h w
    show x.data n c (1 * 4 * t) h w = x.data n c (4 * t) h w
    norm_num
  · show (x.t + 1 * 4 - 1) / (1 * 4) = (x.t + 3) / 4
    norm_num

/-- **C3.**  `SlowFastEncoder.forward` splits the input into the sparse
slow and dense fast streams, runs the fast network first (features and
laterals), feeds the slow stream together with those laterals to the slow
network, concatenates slow-then-fast along dim 1, and applies dropout
last (the whole forward factors through `dropout`). -/
theorem C3_slowfast_forward_fusion_order (cfg : SlowFastEncoderCfg)
    (nets : SlowFastNets) (x : Tensor5) :
    SlowFastEncoder.forward cfg nets x =
      nets.dropout
        (catDim1
          (nets.slownet
            (timeSlice x (cfg.tau_fast * cfg.alpha),
              (nets.fastnet (timeSlice x cfg.tau_fast)).2))
          (nets.fastnet (timeSlice x cfg.tau_fast)).1) ∧
    SlowFastEncoder.forward cfg nets x =
      nets.dropout
        (SlowFastEncoder.forward cfg { nets with dropout := fun y => y } x) :=
  ⟨rfl, rfl⟩

/-- **C4.**  Classifier heads are wired by dynamic shape inference.  For
`R2Plus1DClassifier`: the zero-probe output feature dimension
(`probeDims`, taken at batch 1) equals the encoder's output feature
dimension at every batch size `N ≥ 1` over the configured `input_size`,
and the head applies without a dimension mismatch.  For
`SlowFastDisruptionClassifier`: the probe (taken at batch 8) equals the
encoder's output feature dimension at every batch size, and the
three-layer head applies without a dimension mismatch. -/
theorem C4_dynamic_shape_inference_wiring :
    (∀ (sp : R2Plus1DSpatial) (input_size : Item4) (num_classes N : Nat),
      0 < N →
      R2Plus1DNet.forwardShape sp (Shape5.ofItem N input_size) =
        some (N, R2Plus1DClassifier.probeDims sp input_size) ∧
      R2Plus1DClassifier.forwardShape sp input_size num_classes
          (Shape5.ofItem N input_size) = some (N, num_classes)) ∧
    (∀ (cfg : SlowFastEncoderCfg) (sem : SlowFastShapeSem)
        (input_shape : Item4) (mlp_hidden num_classes N : Nat),
      (SlowFastEncoder.outShape cfg sem (Shape5.ofItem N input_shape)).2 =
        SlowFastEncoder.probeDims cfg sem input_shape ∧
      SlowFastDisruptionClassifier.forwardShape cfg sem input_shape
          mlp_hidden num_classes (Shape5.ofItem N input_shape) =
        some (N, num_classes)) := by
  constructor
  · intro sp input_size num_classes N hN
    have hprobe : R2Plus1DClassifier.probeDims sp input_size = 512 := by
      unfold R2Plus1DClassifier.probeDims
      rw [r2plus1dNet_forwardShape_out sp (Shape5.ofItem 1 input_size)
        Nat.one_pos]
    have henc : R2Plus1DNet.forwardShape sp (Shape5.ofItem N input_size) =
        some (N, 512) :=
      r2plus1dNet_forwardShape_out sp (Shape5.ofItem N input_size) hN
    refine ⟨by rw [henc, hprobe], ?_⟩
    unfold R2Plus1DClassifier.forwardShape
    rw [henc, hprobe]
    simp [R2Plus1DClassifier.headShape, Linear.outShape]
  · intro cfg sem input_shape mlp_hidden num_classes N
    refine ⟨rfl, ?_⟩
    unfold SlowFastDisruptionClassifier.forwardShape
    have hout : SlowFastEncoder.outShape cfg sem
        (Shape5.ofItem N input_shape) =
        (N, SlowFastEncoder.probeDims cfg sem input_shape) := rfl
    rw [hout]
    simp [SlowFastDisruptionClassifier.headShape, Linear.outShape]

/-- A sample abstract spatial semantics for witnesses: identities. -/
def sampleSpatial : R2Plus1DSpatial :=
  { f1 := fun e => e, f2 := fun e => e, f3 := fun e => e
    f4 := fun e => e, f5 := fun e => e }

/-- A sample abstract SlowFast feature-dimension semantics. -/
def sampleSlowFastSem : SlowFastShapeSem :=
  { fastDim := fun _ => 256, slowDim := fun _ _ => 2048 }

/-- The default per-item input shape `(3, 8, 112, 112)`. -/
def sampleItem : Item4 := ⟨3, 8, 112, 112⟩

/-- Witness for C4's theorem at concrete semantics and batch 1. -/
theorem C4_dynamic_shape_inference_wiring_witness :
    0 < 1 ∧
    (R2Plus1DNet.forwardShape sampleSpatial (Shape5.ofItem 1 sampleItem) =
        some (1, R2Plus1DClassifier.probeDims sampleSpatial sampleItem) ∧
      R2Plus1DClassifier.forwardShape sampleSpatial sampleItem 2
          (Shape5.ofItem 1 sampleItem) = some (1, 2)) ∧
    ((SlowFastEncoder.outShape SlowFastEncoderCfg.default sampleSlowFastSem
          (Shape5.ofItem 1 sampleItem)).2 =
        SlowFastEncoder.probeDims SlowFastEncoderCfg.default
          sampleSlowFastSem sampleItem ∧
      SlowFastDisruptionClassifier.forwardShape SlowFastEncoderCfg.default
          sampleSlowFastSem sampleItem 128 2 (Shape5.ofItem 1 sampleItem) =
        some (1, 2)) :=
  ⟨Nat.one_pos,
    C4_dynamic_shape_inference_wiring.1 sampleSpatial sampleItem 2 1
      Nat.one_pos,
    C4_dynamic_shape_inference_wiring.2 SlowFastEncoderCfg.default
      sampleSlowFastSem sampleItem 128 2 1⟩

/-- **C6.**  `SBERTDisruptionClassifier.forward` always calls the SBERT
encoder with `mask = None` and with `doy` the fixed ramp `1, …, max_len`
repeated per batch element; in particular, two models that agree
everywhere except on how the encoder treats a non-`None` mask produce
identical outputs, so the classifier output depends only on `x` and the
model's own components. -/
theorem C6_sbert_forward_mask_none (m : SBERTClassifierModel) (x : Tensor5)
    (m2 : SBERTClassifierModel)
    (hmax : m2.max_len = m.max_len)
    (henc : m2.spatio_encoder = m.spatio_encoder)
    (hcls : m2.classifier = m.classifier)
    (hnone : ∀ t d, m2.encode t d none = m.encode t d none) :
    SBERTDisruptionClassifier.forward m x =
      m.classifier
        (m.encode (m.spatio_encoder x)
          (rampDoy (m.spatio_encoder x).n m.max_len) none) ∧
    (∀ b i, (rampDoy (m.spatio_encoder x).n m.max_len).data b i =
      (i : Int) + 1) ∧
    SBERTDisruptionClassifier.forward m2 x =
      SBERTDisruptionClassifier.forward m x := by
  refine ⟨rfl, fun b i => rfl, ?_⟩
  unfold SBERTDisruptionClassifier.forward
  simp only [henc, hcls, hmax]
  rw [hnone]

/-- A sample input tensor for witnesses. -/
def sampleX : Tensor5 := ⟨1, 3, 8, 4, 4, fun _ _ _ _ _ => 0⟩

/-- A sample `SBERTDisruptionClassifier` whose abstract SBERT ignores the
mask. -/
def sampleSBERT : SBERTClassifierModel :=
  { max_len := 2
    spatio_encoder := fun x => ⟨x.n, 2, 3, fun _ _ _ => 0⟩
    encode := fun t _ _ => t
    classifier := fun t => ⟨t.n, 2, fun _ _ => 0⟩ }

/-- The same model except that its SBERT reacts to a `some` mask; it
agrees with `sampleSBERT` at `mask = None`. -/
def sampleSBERTMasked : SBERTClassifierModel :=
  { sampleSBERT with
    encode := fun t _ mk =>
      match mk with
      | none => t
      | some _ => ⟨0, 0, 0, fun _ _ _ => 7⟩ }

/-- Witness for C6's theorem at the sample models. -/
theorem C6_sbert_forward_mask_none_witness :
    (sampleSBERTMasked.max_len = sampleSBERT.max_len ∧
      sampleSBERTMasked.spatio_encoder = sampleSBERT.spatio_encoder ∧
      sampleSBERTMasked.classifier = sampleSBERT.classifier ∧
      ∀ t d, sampleSBERTMasked.encode t d none = sampleSBERT.encode t d none) ∧
    (SBERTDisruptionClassifier.forward sampleSBERT sampleX =
        sampleSBERT.classifier
          (sampleSBERT.encode (sampleSBERT.spatio_encoder sampleX)
            (rampDoy (sampleSBERT.spatio_encoder sampleX).n
              sampleSBERT.max_len) none) ∧
      (∀ b i, (rampDoy (sampleSBERT.spatio_encoder sampleX).n
          sampleSBERT.max_len).data b i = (i : Int) + 1) ∧
      SBERTDisruptionClassifier.forward sampleSBERTMasked sampleX =
        SBERTDisruptionClassifier.forward sampleSBERT sampleX) :=
  ⟨⟨rfl, rfl, rfl, fun _ _ => rfl⟩,
    C6_sbert_forward_mask_none sampleSBERT sampleX sampleSBERTMasked
      rfl rfl rfl (fun _ _ => rfl)⟩

/-- **C7.**  Each embedded `summary()` method is a pure printer: it
returns `()` (Python `None`), leaves the model — including every
parameter it holds — unchanged, and only appends the rendered
architecture description to the output log. -/
theorem C7_summary_methods_pure {M : Type} (r : SummaryRenderer M)
    (it : Item4) (st : SummaryState M) :
    ((R2Plus1DClassifier.summaryRun r it st).1.model = st.model ∧
      (R2Plus1DClassifier.summaryRun r it st).1.log =
        st.log ++ [r.render st.model (zeros5 (Shape5.ofItem 1 it))] ∧
      (R2Plus1DClassifier.summaryRun r it st).2 = ()) ∧
    ((SlowFastEncoder.summaryRun r it st).1.model = st.model ∧
      (SlowFastEncoder.summaryRun r it st).1.log =
        st.log ++ [r.render st.model (zeros5 (Shape5.ofItem 8 it))] ∧
      (SlowFastEncoder.summaryRun r it st).2 = ()) ∧
    ((SlowFastDisruptionClassifier.summaryRun r it st).1.model = st.model ∧
      (SlowFastDisruptionClassifier.summaryRun r it st).1.log =
        st.log ++ [r.render st.model (zeros5 (Shape5.ofItem 8 it))] ∧
      (SlowFastDisruptionClassifier.summaryRun r it st).2 = ()) ∧
    ((SBERTDisruptionClassifier.summaryRun r it st).1.model = st.model ∧
      (SBERTDisruptionClassifier.summaryRun r it st).1.log =
        st.log ++ [r.render st.model (zeros5 (Shape5.ofItem 8 it))] ∧
      (SBERTDisruptionClassifier.summaryRun r it st).2 = ()) ∧
    ((Unet3DClassifier.summaryRun r it st).1.model = st.model ∧
      (Unet3DClassifier.summaryRun r it st).1.log =
        st.log ++ [r.render st.model (zeros5 (Shape5.ofItem 4 it))] ∧
      (Unet3DClassifier.summaryRun r it st).2 = ()) :=
  ⟨⟨rfl, rfl, rfl⟩, ⟨rfl, rfl, rfl⟩, ⟨rfl, rfl, rfl⟩, ⟨rfl, rfl, rfl⟩,
    ⟨rfl, rfl, rfl⟩⟩

/-- **C8.**  The forward passes introduce no error branch of their own:
whenever the embedded `SlowFastDisruptionClassifier.forward` or
`Unet3DClassifier.forward` fails, the error is exactly one raised by a
framework module it invokes (the encoder, the ResNet, or the linear
head), propagated unchanged. -/
theorem C8_errors_originate_in_framework :
    (∀ (m : SlowFastFallible) (x : Tensor5) (e : FwError),
      SlowFastDisruptionClassifier.forwardE m x = Except.error e →
        m.slowfast x = Except.error e ∨
        ∃ t, m.slowfast x = Except.ok t ∧
          m.classifier t = Except.error e) ∧
    (∀ (u : Unet3DFallible) (x : Tensor5) (e : FwError),
      Unet3DClassifier.forwardE u x = Except.error e →
        u.spatio_encoder x = Except.error e ∨
        ∃ a, u.spatio_encoder x = Except.ok a ∧
          (u.resnet a = Except.error e ∨
            ∃ b, u.resnet a = Except.ok b ∧
              u.classifier (u.flatten b) = Except.error e)) := by
  constructor
  · intro m x e h
    unfold SlowFastDisruptionClassifier.forwardE at h
    cases hsf : m.slowfast x with
    | error e2 =>
        left
        rw [hsf] at h
        have he : e2 = e := by simpa using h
        rw [he]
    | ok t =>
        right
        refine ⟨t, rfl, ?_⟩
        rw [hsf] at h
        simpa using h
  · intro u x e h
    unfold Unet3DClassifier.forwardE at h
    cases hse : u.spatio_encoder x with
    | error e2 =>
        left
        rw [hse] at h
        have he : e2 = e := by simpa using h
        rw [he]
    | ok a =>
        right
        refine ⟨a, rfl, ?_⟩
        rw [hse] at h
        simp only [] at h
        cases hrn : u.resnet a with
        | error e3 =>
            left
            rw [hrn] at h
            have he : e3 = e := by simpa using h
            rw [he]
        | ok b =>
            right
            refine ⟨b, rfl, ?_⟩
            rw [hrn] at h
            simpa using h

/-- A SlowFast classifier whose encoder raises a framework error. -/
def sampleFailSlowFast : SlowFastFallible :=
  { slowfast := fun _ => Except.error ⟨"Conv3d: shape mismatch"⟩
    classifier := fun t => Except.ok t }

/-- A UNet3D classifier whose linear head raises a framework error. -/
def sampleFailUnet : Unet3DFallible :=
  { spatio_encoder := fun t => Except.ok t
    resnet := fun t => Except.ok t
    flatten := fun t => ⟨t.n, t.c * t.t * t.h * t.w, fun _ _ => 0⟩
    classifier := fun _ => Except.error ⟨"Linear: size mismatch"⟩ }

/-- Witness for C8's theorem at the failing sample models. -/
theorem C8_errors_originate_in_framework_witness :
    (SlowFastDisruptionClassifier.forwardE sampleFailSlowFast sampleX =
        Except.error ⟨"Conv3d: shape mismatch"⟩ ∧
      (sampleFailSlowFast.slowfast sampleX =
          Except.error ⟨"Conv3d: shape mismatch"⟩ ∨
        ∃ t, sampleFailSlowFast.slowfast sampleX = Except.ok t ∧
          sampleFailSlowFast.classifier t =
            Except.error ⟨"Conv3d: shape mismatch"⟩)) ∧
    (Unet3DClassifier.forwardE sampleFailUnet sampleX =
        Except.error ⟨"Linear: size mismatch"⟩ ∧
      (sampleFailUnet.spatio_encoder sampleX =
          Except.error ⟨"Linear: size mismatch"⟩ ∨
        ∃ a, sampleFailUnet.spatio_encoder sampleX = Except.ok a ∧
          (sampleFailUnet.resnet a = Except.error ⟨"Linear: size mismatch"⟩ ∨
            ∃ b, sampleFailUnet.resnet a = Except.ok b ∧
              sampleFailUnet.classifier (sampleFailUnet.flatten b) =
                Except.error ⟨"Linear: size mismatch"⟩))) :=
  ⟨⟨rfl, C8_errors_originate_in_framework.1 sampleFailSlowFast sampleX _ rfl⟩,
    ⟨rfl, C8_errors_originate_in_framework.2 sampleFailUnet sampleX _ rfl⟩⟩

/-- **C9.**  Every embedded forward pass preserves the leading batch
dimension: `R2Plus1DNet.forward` returns the 2-D shape `(N, 512)` for any
positive batch `N`; `VideoSpatioEncoder.forward`,
`SlowFastEncoder.forward` and each classifier's forward keep first
dimension `N` whenever they produce an output. -/
theorem C9_batch_dimension_preserved :
    (∀ (sp : R2Plus1DSpatial) (s : Shape5), 0 < s.n →
      R2Plus1DNet.forwardShape sp s = some (s.n, 512)) ∧
    (∀ (cfg : VideoSpatioEncoderCfg) (s : Shape5) (sh : Shape3),
      VideoSpatioEncoder.forwardShape cfg s = some sh → sh.n = s.n) ∧
    (∀ (cfg : SlowFastEncoderCfg) (sem : SlowFastShapeSem) (s : Shape5),
      (SlowFastEncoder.outShape cfg sem s).1 = s.n) ∧
    (∀ (sp : R2Plus1DSpatial) (input_size : Item4) (num_classes : Nat)
        (s : Shape5) (p : Nat × Nat),
      R2Plus1DClassifier.forwardShape sp input_size num_classes s = some p →
        p.1 = s.n) ∧
    (∀ (cfg : SlowFastEncoderCfg) (sem : SlowFastShapeSem)
        (input_shape : Item4) (mlp_hidden num_classes : Nat) (s : Shape5)
        (p : Nat × Nat),
      SlowFastDisruptionClassifier.forwardShape cfg sem input_shape
          mlp_hidden num_classes s = some p → p.1 = s.n) ∧
    (∀ (sem : Unet3DShapeSem) (input_shape : Item4)
        (mlp_hidden num_classes : Nat) (s : Shape5) (p : Nat × Nat),
      Unet3DClassifier.forwardShape sem input_shape mlp_hidden num_classes
          s = some p → p.1 = s.n) ∧
    (∀ (cfg : VideoSpatioEncoderCfg) (sem : SBERTShapeSem) (s : Shape5)
        (p : Nat × Nat),
      SBERTDisruptionClassifier.forwardShape cfg sem s = some p →
        p.1 = s.n) := by
  have hvideo : ∀ (cfg : VideoSpatioEncoderCfg) (s : Shape5) (sh : Shape3),
      VideoSpatioEncoder.forwardShape cfg s = some sh → sh.n = s.n := by
    intro cfg s sh h
    unfold VideoSpatioEncoder.forwardShape at h
    have hb : (VideoSpatioEncoder.bodyShape s).n = s.n := by
      simp [VideoSpatioEncoder.bodyShape, Conv3dResBlock.outShape,
        MaxPool3d.outShape]
    rw [hb] at h
    exact (view3Infer_some_n h).1
  refine ⟨r2plus1dNet_forwardShape_out, hvideo, fun _ _ _ => rfl, ?_, ?_, ?_, ?_⟩
  · intro sp input_size num_classes s p h
    unfold R2Plus1DClassifier.forwardShape at h
    rcases Option.bind_eq_some.mp h with ⟨q, hq, hp⟩
    rw [r2plus1dNet_forwardShape_eq] at hq
    have hq1 : q.1 = s.n := view2Infer_some hq
    unfold R2Plus1DClassifier.headShape at hp
    rcases Option.bind_eq_some.mp hp with ⟨v, hv, hp2⟩
    have hv1 : v.1 = q.1 := linear_outShape_some hv
    have hp1 : p.1 = v.1 := linear_outShape_some hp2
    rw [hp1, hv1, hq1]
  · intro cfg sem input_shape mlp_hidden num_classes s p h
    unfold SlowFastDisruptionClassifier.forwardShape at h
    unfold SlowFastDisruptionClassifier.headShape at h
    rcases Option.bind_eq_some.mp h with ⟨v, hv, hp2⟩
    rcases Option.bind_eq_some.mp hv with ⟨q, hq, hv2⟩
    have h1 : q.1 = (SlowFastEncoder.outShape cfg sem s).1 :=
      linear_outShape_some hq
    have h2 : v.1 = q.1 := linear_outShape_some hv2
    have h3 : p.1 = v.1 := linear_outShape_some hp2
    rw [h3, h2, h1]
    rfl
  · intro sem input_shape mlp_hidden num_classes s p h
    unfold Unet3DClassifier.forwardShape at h
    rcases Option.bind_eq_some.mp h with ⟨q, hq, hp2⟩
    have h1 : q.1 = s.n := linear_outShape_some hq
    have h2 : p.1 = q.1 := linear_outShape_some hp2
    rw [h2, h1]
  · intro cfg sem s p h
    unfold SBERTDisruptionClassifier.forwardShape at h
    rcases Option.map_eq_some'.mp h with ⟨e, he, hp⟩
    have h1 : e.n = s.n := hvideo cfg s e he
    rw [← hp, h1]

/-- A sample abstract UNet3D/ResNet shape semantics for witnesses. -/
def sampleUnetSem : Unet3DShapeSem :=
  { unet := fun it => it, resnet := fun it => it }

/-- A sample abstract SBERT shape semantics for witnesses. -/
def sampleSBERTSem : SBERTShapeSem :=
  { hidden := fun _ => 64, num_classes := 2 }

/-- A sample 5-D shape of batch 2 with the default per-item extent. -/
def sampleShape : Shape5 := ⟨2, 3, 8, 112, 112⟩

/-- Witness for C9's theorem: each conjunct applied at concrete
semantics, shapes, and outputs. -/
theorem C9_batch_dimension_preserved_witness :
    (0 < sampleShape.n ∧
      R2Plus1DNet.forwardShape sampleSpatial sampleShape =
        some (sampleShape.n, 512)) ∧
    (VideoSpatioEncoder.forwardShape VideoSpatioEncoderCfg.default
        sampleShape = some ⟨2, 8, 2304⟩ ∧
      (⟨2, 8, 2304⟩ : Shape3).n = sampleShape.n) ∧
    (SlowFastEncoder.outShape SlowFastEncoderCfg.default sampleSlowFastSem
        sampleShape).1 = sampleShape.n ∧
    (R2Plus1DClassifier.forwardShape sampleSpatial sampleItem 2
        sampleShape = some (2, 2) ∧
      (2, 2).1 = sampleShape.n) ∧
    (SlowFastDisruptionClassifier.forwardShape SlowFastEncoderCfg.default
        sampleSlowFastSem sampleItem 128 2 sampleShape = some (2, 2) ∧
      (2, 2).1 = sampleShape.n) ∧
    (Unet3DClassifier.forwardShape sampleUnetSem sampleItem 128 2
        sampleShape = some (2, 2) ∧
      (2, 2).1 = sampleShape.n) ∧
    (SBERTDisruptionClassifier.forwardShape VideoSpatioEncoderCfg.default
        sampleSBERTSem sampleShape = some (2, 2) ∧
      (2, 2).1 = sampleShape.n) := by
  have hv : VideoSpatioEncoder.forwardShape VideoSpatioEncoderCfg.default
      sampleShape = some ⟨2, 8, 2304⟩ := by decide
  have hr : R2Plus1DClassifier.forwardShape sampleSpatial sampleItem 2
      sampleShape = some (2, 2) := by decide
  have hs : SlowFastDisruptionClassifier.forwardShape
      SlowFastEncoderCfg.default sampleSlowFastSem sampleItem 128 2
      sampleShape = some (2, 2) := by decide
  have hu : Unet3DClassifier.forwardShape sampleUnetSem sampleItem 128 2
      sampleShape = some (2, 2) := by decide
  have hb : SBERTDisruptionClassifier.forwardShape
      VideoSpatioEncoderCfg.default sampleSBERTSem sampleShape =
      some (2, 2) := by decide
  refine ⟨⟨by decide, C9_batch_dimension_preserved.1 sampleSpatial
      sampleShape (by decide)⟩,
    ⟨hv, C9_batch_dimension_preserved.2.1 VideoSpatioEncoderCfg.default
      sampleShape ⟨2, 8, 2304⟩ hv⟩,
    C9_batch_dimension_preserved.2.2.1 SlowFastEncoderCfg.default
      sampleSlowFastSem sampleShape,
    ⟨hr, C9_batch_dimension_preserved.2.2.2.1 sampleSpatial sampleItem 2
      sampleShape (2, 2) hr⟩,
    ⟨hs, C9_batch_dimension_preserved.2.2.2.2.1 SlowFastEncoderCfg.default
      sampleSlowFastSem sampleItem 128 2 sampleShape (2, 2) hs⟩,
    ⟨hu, C9_batch_dimension_preserved.2.2.2.2.2.1 sampleUnetSem sampleItem
      128 2 sampleShape (2, 2) hu⟩,
    ⟨hb, C9_batch_dimension_preserved.2.2.2.2.2.2 VideoSpatioEncoderCfg.default
      sampleSBERTSem sampleShape (2, 2) hb⟩⟩

/-- **C10.**  Immediately after `R2Plus1DClassifier` construction —
regardless of the `pretrained` flag, since `__init_weight` runs
unconditionally and `__load_pretrained_weights` only prints — every
`BatchNorm3d` submodule has its weight filled with 1 and its bias filled
with 0, and every `Conv3d` submodule has its weight set by the
Kaiming-normal initializer. -/
theorem C10_init_weight_after_construction
    (kaiming : List Nat → List Nat → Rat) (base : List PModule)
    (pretrained : Bool) :
    (R2Plus1DClassifier.constructModules kaiming base pretrained).1 =
      initWeight kaiming base ∧
    ∀ m ∈ (R2Plus1DClassifier.constructModules kaiming base pretrained).1,
      (m.kind = ModuleKind.batchNorm3d →
        m.weight.val = (fun _ => (1 : Rat)) ∧
        m.bias.val = (fun _ => (0 : Rat))) ∧
      (m.kind = ModuleKind.conv3d →
        m.weight.val = kaiming m.weight.shape) := by
  have h1 : (R2Plus1DClassifier.constructModules kaiming base pretrained).1 =
      initWeight kaiming base := by
    unfold R2Plus1DClassifier.constructModules loadPretrainedWeights
    cases pretrained <;> rfl
  refine ⟨h1, ?_⟩
  rw [h1]
  intro m hm
  rcases List.mem_map.mp hm with ⟨m0, hm0, hmap⟩
  subst hmap
  cases hk : m0.kind
  · constructor
    · intro hbad
      simp [hk] at hbad
    · intro _
      simp [hk]
  · constructor
    · intro _
      simp [hk, ParamTensor.fill]
    · intro hbad
      simp [hk] at hbad
  · constructor
    · intro hbad
      simp [hk] at hbad
    · intro hbad
      simp [hk] at hbad

/-- A sample Kaiming draw for witnesses. -/
def sampleKaiming : List Nat → List Nat → Rat := fun _ _ => 2

/-- A sample module list for witnesses: one Conv3d, one BatchNorm3d. -/
def sampleModules : List PModule :=
  [⟨ModuleKind.conv3d, ⟨[64, 3, 3, 7, 7], fun _ => 5⟩, ⟨[64], fun _ => 5⟩⟩,
   ⟨ModuleKind.batchNorm3d, ⟨[64], fun _ => 3⟩, ⟨[64], fun _ => 4⟩⟩]

/-- The BatchNorm3d module of `sampleModules` as initialized. -/
def sampleBnInit : PModule :=
  ⟨ModuleKind.batchNorm3d, ⟨[64], fun _ => 1⟩, ⟨[64], fun _ => 0⟩⟩

/-- Witness for C10's theorem on the sample module list with
`pretrained = true`. -/
theorem C10_init_weight_after_construction_witness :
    (R2Plus1DClassifier.constructModules sampleKaiming sampleModules
        true).1 = initWeight sampleKaiming sampleModules ∧
    sampleBnInit ∈ (R2Plus1DClassifier.constructModules sampleKaiming
        sampleModules true).1 ∧
    ((sampleBnInit.kind = ModuleKind.batchNorm3d →
        sampleBnInit.weight.val = (fun _ => (1 : Rat)) ∧
        sampleBnInit.bias.val = (fun _ => (0 : Rat))) ∧
      (sampleBnInit.kind = ModuleKind.conv3d →
        sampleBnInit.weight.val = sampleKaiming sampleBnInit.weight.shape)) := by
  have hmem : sampleBnInit ∈ (R2Plus1DClassifier.constructModules
      sampleKaiming sampleModules true).1 :=
    List.Mem.tail _ (List.Mem.head _)
  exact ⟨(C10_init_weight_after_construction sampleKaiming sampleModules
      true).1,
    hmem,
    (C10_init_weight_after_construction sampleKaiming sampleModules true).2
      sampleBnInit hmem⟩

end Disruption










